import Mathlib

/-!
Shallow embedding of the rskafka producer pipeline core
(`src/client/producer.rs`, `src/client/controller.rs`, `src/client/error.rs`).

Pure data and control flow are translated into Lean functions; the async
operations (`client.produce(..).await`, the mutex on `ProducerInner`,
`mem::take` of the broadcast slot) are made observable through an explicit
event trace, so that ordering claims (slot taken before/after the RPC,
mutex released before/after the RPC) become statements about traces.

Modules of the repository that are not present under `src/`
(`producer/aggregator.rs`, `producer/broadcast.rs`, `protocol/error.rs`,
`validation.rs`, `throttle.rs`, `record.rs`, `backoff.rs`) are modelled
from the specification; each such definition carries a doc comment
starting with `Modelled from the spec:`.
-/

/-- Modelled from the spec: the wire `Record` (`record.rs` is not under
`src/`): optional key bytes, optional value bytes, headers (string to
bytes), millisecond timestamp. -/
structure Record where
  key : List Nat
  value : List Nat
  headers : List (String × List Nat)
  timestamp : Int
deriving DecidableEq

/-- Modelled from the spec: a record's approximate serialized size is
computable and monotone in key+value+headers length. -/
def Record.approximateSize (r : Record) : Nat :=
  r.key.length + r.value.length
    + (r.headers.map (fun h => h.1.length + h.2.length)).sum

/-- Modelled from the spec: broker protocol error codes
(`protocol/error.rs` is not under `src/`).  Only the codes the spec and
the tests mention are included. -/
inductive ProtocolError where
  | CorruptMessage
  | LeaderNotAvailable
  | NotLeaderForPartition
  | NetworkException
  | CoordinatorLoadInProgress
  | NotController
  | ThrottlingQuotaExceeded
  | TopicAlreadyExists
  | InvalidTopicException
  | UnknownServerError
deriving DecidableEq

/-- Modelled from the spec: the protocol's fixed retriable classification
("corruption, throttling, leader-unavailable, coordinator-loading, etc.";
`NotController` and `NotLeaderForPartition` are transient as well). -/
def ProtocolError.isRetriable : ProtocolError → Bool
  | .CorruptMessage => true
  | .LeaderNotAvailable => true
  | .NotLeaderForPartition => true
  | .NetworkException => true
  | .CoordinatorLoadInProgress => true
  | .NotController => true
  | .ThrottlingQuotaExceeded => true
  | .TopicAlreadyExists => false
  | .InvalidTopicException => false
  | .UnknownServerError => false

/-- Modelled from the spec: `messenger::RequestError`
(`messenger.rs` is not under `src/`): `Poisoned`, `IO`, `Protocol`. -/
inductive RequestError where
  | poisoned
  | ioFailure
  | protocolFailure
deriving DecidableEq

/-- Context attached to `Error::ServerError` (`error.rs`:
`ServerErrorContext`; `controller.rs` names it `RequestContext`). -/
inductive RequestContext where
  | Topic (name : String)
  | Partition (name : String) (index : Int)
deriving DecidableEq

/-- Modelled from the spec: `backoff::BackoffError`
(`backoff.rs` is not under `src/`): deadline exceeded. -/
inductive BackoffError where
  | deadlineExceeded
deriving DecidableEq

/-- `client::error::Error` from `error.rs` (the `ServerError` payload field
is omitted; `controller.rs` always passes `None` for it). -/
inductive ClientError where
  | Connection (msg : String)
  | Request (e : RequestError)
  | InvalidResponse (msg : String)
  | ServerError (protocolError : ProtocolError) (errorMessage : Option String)
      (context : Option RequestContext) (isVirtual : Bool)
  | RetryFailed (e : BackoffError)
deriving DecidableEq

/-- Modelled from the spec: `aggregator::Error` (opaque boxed error in the
source; `producer/aggregator.rs` is not under `src/`). -/
structure AggError where
  msg : String
deriving DecidableEq

/-- Modelled from the spec: a `StatusDeaggregator` is, observably, its
`deaggregate(offsets, tag)` method: a pure function from the batch's
offsets and a caller's tag to that caller's status. -/
def StatusDeagg (Tag Status : Type) : Type :=
  List Int → Tag → Except AggError Status

/-- Modelled from the spec: `aggregator::TryPush`.  `Aggregated` carries
the mutated aggregator state together with the tag; `NoCapacity` hands the
input back and (per the trait contract) leaves the state untouched. -/
inductive TryPushR (S Input Tag : Type) where
  | Aggregated (st : S) (tag : Tag)
  | NoCapacity (data : Input)

/-- Modelled from the spec: the `Aggregator` trait, state-passing style.
`tryPush` is `try_push(&mut self, input)`, `flushAgg` is
`flush(&mut self) -> (records, deaggregator)` (the third component is the
reset internal state). -/
structure AggModel (Input Tag S Status : Type) where
  tryPush : S → Input → Except AggError (TryPushR S Input Tag)
  flushAgg : S → List Record × StatusDeagg Tag Status × S

/-- `producer::Error` from `producer.rs`. -/
inductive ProducerError where
  | Aggregator (e : AggError)
  | Client (e : ClientError)
  | TooLarge
deriving DecidableEq

/-- `AggregatedStatus` from `producer.rs`: the broker-assigned offsets of
one batch plus that batch's deaggregator. -/
structure AggregatedStatusM (Tag Status : Type) where
  aggregatedStatus : List Int
  statusDeagg : StatusDeagg Tag Status

/-- `AggregatedResult` from `producer.rs`: `Ok(Arc<AggregatedStatus>)` or
`Err(Arc<ClientError>)`.  The `Arc` sharing is rendered by value sharing:
every caller of the batch extracts from the same `inner`. -/
structure AggregatedResultM (Tag Status : Type) where
  inner : Except ClientError (AggregatedStatusM Tag Status)

/-- `AggregatedResult::extract` from `producer.rs`. -/
def AggregatedResultM.extract {Tag Status : Type}
    (r : AggregatedResultM Tag Status) (tag : Tag) : Except ProducerError Status :=
  match r.inner with
  | .ok status =>
    match status.statusDeagg status.aggregatedStatus tag with
    | .ok s => .ok s
    | .error e => .error (.Aggregator e)
  | .error clientError => .error (.Client clientError)

/-- The mutable state behind the `ProducerInner` mutex, plus slot book
keeping.  `slotId` identifies the current `result_slot`
(`BroadcastOnce`): `mem::take` installs a fresh slot, rendered as
`slotId + 1`.  `fired k` is the value broadcast on slot `k`, if any
(`BroadcastOnce` fires at most once; receivers of slot `k` resolve to
`fired k`). -/
structure PState (Tag S Status : Type) where
  agg : S
  slotId : Nat
  fired : Nat → Option (AggregatedResultM Tag Status)

/-- Observable events of one `produce`/`flush` run: the `ProducerInner`
mutex, `aggregator.try_push`, `aggregator.flush`, the awaited
`client.produce` RPC, `mem::take` of the result slot, `broadcast`, and
`result_slot.receive()` capture. -/
inductive Ev where
  | lockAcquire
  | lockRelease
  | tryPushCall
  | aggFlushCall
  | rpcProduce (records : List Record)
  | slotTake (slot : Nat)
  | slotBroadcast (slot : Nat)
  | slotReceive (slot : Nat)
deriving DecidableEq

/-- `BatchProducer::flush` from `producer.rs` (lines 435-460), with the
RPC outcome supplied by the oracle `rpc`.  Source order: `aggregator.flush()`;
early return on empty output; `client.produce(output).await`;
`mem::take(&mut inner.result_slot)`; `slot.broadcast(..)`. -/
def produceFlush {Input Tag S Status : Type}
    (m : AggModel Input Tag S Status)
    (rpc : List Record → Except ClientError (List Int))
    (st : PState Tag S Status) :
    PState Tag S Status × List Ev :=
  let fl := m.flushAgg st.agg
  let output := fl.1
  let statusDeagg := fl.2.1
  let agg2 := fl.2.2
  if output.isEmpty then
    ({ st with agg := agg2 }, [.aggFlushCall])
  else
    let r := rpc output
    -- Reset result slot
    let oldId := st.slotId
    let res : AggregatedResultM Tag Status :=
      match r with
      | .ok status => ⟨.ok ⟨status, statusDeagg⟩⟩
      | .error e => ⟨.error e⟩
    (⟨agg2, oldId + 1, fun k => if k = oldId then some res else st.fired k⟩,
      [.aggFlushCall, .rpcProduce output, .slotTake oldId, .slotBroadcast oldId])

/-- The first critical section of `BatchProducer::produce` from
`producer.rs` (lines 377-399): under the `ProducerInner` lock, `try_push`;
on `NoCapacity`, `flush` and retry `try_push`, failing with `TooLarge` on
a second `NoCapacity`; on success capture `(result_slot.receive(), tag)`.
Returns the captured slot id and tag (or the error), the post state, and
the event trace of the critical section. -/
def produceEnqueue {Input Tag S Status : Type}
    (m : AggModel Input Tag S Status)
    (rpc : List Record → Except ClientError (List Int))
    (st : PState Tag S Status) (data : Input) :
    Except ProducerError (Nat × Tag) × PState Tag S Status × List Ev :=
  match m.tryPush st.agg data with
  | .error e =>
    (.error (.Aggregator e), st, [.lockAcquire, .tryPushCall, .lockRelease])
  | .ok (.Aggregated agg1 tag) =>
    let st1 := { st with agg := agg1 }
    (.ok (st1.slotId, tag), st1,
      [.lockAcquire, .tryPushCall, .slotReceive st1.slotId, .lockRelease])
  | .ok (.NoCapacity data1) =>
    let fr := produceFlush m rpc st
    let st1 := fr.1
    let fev := fr.2
    match m.tryPush st1.agg data1 with
    | .error e =>
      (.error (.Aggregator e), st1,
        [.lockAcquire, .tryPushCall] ++ fev ++ [.tryPushCall, .lockRelease])
    | .ok (.Aggregated agg2 tag) =>
      let st2 := { st1 with agg := agg2 }
      (.ok (st2.slotId, tag), st2,
        [.lockAcquire, .tryPushCall] ++ fev
          ++ [.tryPushCall, .slotReceive st2.slotId, .lockRelease])
    | .ok (.NoCapacity _) =>
      (.error .TooLarge, st1,
        [.lockAcquire, .tryPushCall] ++ fev ++ [.tryPushCall, .lockRelease])

/-- The linger-expired branch of `BatchProducer::produce` from
`producer.rs` (lines 410-431): re-acquire the lock, `result_slot.peek()`;
if fired, extract; else `flush`, then the non-blocking `now_or_never`
check on the captured receiver.  `none` in the first component renders the
`.expect("just flushed")` panic. -/
def lingerExpiredPath {Input Tag S Status : Type}
    (m : AggModel Input Tag S Status)
    (rpc : List Record → Except ClientError (List Int))
    (st : PState Tag S Status) (captured : Nat) (tag : Tag) :
    Option (Except ProducerError Status) × PState Tag S Status :=
  match st.fired captured with
  | some r => (some (r.extract tag), st)
  | none =>
    let fr := produceFlush m rpc st
    let st1 := fr.1
    match st1.fired captured with
    | some r => (some (r.extract tag), st1)
    | none => (none, st1)

/-- Slot book-keeping invariant of `PState`: exactly the slots strictly
below the current one have been fired (each `mem::take` of the slot is
immediately followed by a `broadcast` on it inside `flush`). -/
def WellFormedSlots {Tag S Status : Type} (st : PState Tag S Status) : Prop :=
  ∀ k, (st.fired k).isSome = true ↔ k < st.slotId

/-- Does the trace contain a `client.produce` RPC? -/
def hasRpc (tr : List Ev) : Bool :=
  tr.any fun e =>
    match e with
    | .rpcProduce _ => true
    | _ => false

/-- Scans a trace and checks that every `client.produce` RPC happens after
the result slot has already been taken out (`taken` accumulates whether a
`slotTake` has been seen). -/
def slotTakenBeforeRpcs : List Ev → Bool → Bool
  | [], _ => true
  | .slotTake _ :: rest, _ => slotTakenBeforeRpcs rest true
  | .rpcProduce _ :: rest, taken => taken && slotTakenBeforeRpcs rest taken
  | _ :: rest, taken => slotTakenBeforeRpcs rest taken

/-- Scans a trace and checks that every `client.produce` RPC happens while
the `ProducerInner` mutex is NOT held (`held` tracks the lock state). -/
def lockFreeAtRpcs : List Ev → Bool → Bool
  | [], _ => true
  | .lockAcquire :: rest, _ => lockFreeAtRpcs rest true
  | .lockRelease :: rest, _ => lockFreeAtRpcs rest false
  | .rpcProduce _ :: rest, held => !held && lockFreeAtRpcs rest held
  | _ :: rest, held => lockFreeAtRpcs rest held

/-- Scans a trace and checks that every `client.produce` RPC happens while
the `ProducerInner` mutex IS held (`held` tracks the lock state). -/
def lockHeldAtRpcs : List Ev → Bool → Bool
  | [], _ => true
  | .lockAcquire :: rest, _ => lockHeldAtRpcs rest true
  | .lockRelease :: rest, _ => lockHeldAtRpcs rest false
  | .rpcProduce _ :: rest, held => held && lockHeldAtRpcs rest held
  | _ :: rest, held => lockHeldAtRpcs rest held

/-- Modelled from the spec: the deaggregator of the canonical
`RecordAggregator` (`producer/aggregator.rs` is not under `src/`): it
indexes `offsets[tag]` directly, the tag being the record's 0-based index
within the batch. -/
def recordAggDeagg : StatusDeagg Nat Int := fun offsets tag =>
  match offsets.get? tag with
  | some o => .ok o
  | none => .error ⟨"tag out of range"⟩

/-- Cumulative approximate byte size of the records held by a
`RecordAggregator`. -/
def recordAggSize (s : List Record) : Nat :=
  (s.map Record.approximateSize).sum

/-- Modelled from the spec: the canonical `RecordAggregator(max_bytes)`
(`producer/aggregator.rs` is not under `src/`): stores a vector of
records, computes cumulative approximate byte size, returns `NoCapacity`
when admitting the record would exceed `max_bytes`, returns the record's
0-based index as the tag, and flushes the vector. -/
def recordAggregator (maxBytes : Nat) : AggModel Record Nat (List Record) Int where
  tryPush := fun s r =>
    if maxBytes < recordAggSize s + r.approximateSize then
      .ok (.NoCapacity r)
    else
      .ok (.Aggregated (s ++ [r]) s.length)
  flushAgg := fun s => (s, recordAggDeagg, [])

/-- The action the error-handling `match` of `maybe_retry` takes on a
non-throttle error. -/
inductive ErrorAction where
  | invalidateAndContinue (reason : String)
  | breakFatal
deriving DecidableEq

/-- The error classification of `maybe_retry` from `controller.rs`
(lines 175-204): broken connections invalidate the broker cache and
continue; `ServerError` with `NotController` invalidates and continues;
every other error breaks the loop as fatal. -/
def classifyControllerError (e : ClientError) : ErrorAction :=
  match e with
  | .Request .poisoned | .Request .ioFailure | .Connection _ =>
    .invalidateAndContinue "controller client: connection broken"
  | .ServerError .NotController _ _ _ =>
    .invalidateAndContinue "controller client: server error: not controller"
  | _ => .breakFatal

/-- The tail of `ControllerClient::create_topic` from `controller.rs`
(lines 90-97): given the outcome of the retried create-topics RPC and of
the subsequent `refresh_metadata` call, the value returned to the caller;
the refresh outcome is bound to `_` and discarded. -/
def createTopicResult (rpcOutcome : Except ClientError Unit)
    (refreshOutcome : Except ClientError Unit) : Except ClientError Unit :=
  match rpcOutcome with
  | .error e => .error e
  | .ok _ =>
    let _ := refreshOutcome
    .ok ()

/-- A record of approximate size 10 (the shape of `record()` in the
`producer.rs` tests: 4 key bytes, 6 value bytes, no headers). -/
def record10 : Record :=
  { key := [0, 0, 0, 0], value := [0, 0, 0, 0, 0, 0], headers := [], timestamp := 320 }

/-- A record of approximate size 20. -/
def recordBig : Record :=
  { key := List.replicate 8 0, value := List.replicate 12 0, headers := [], timestamp := 320 }

/-- A producer state whose aggregator is at capacity for
`recordAggregator 20`: two size-10 records, fresh slot 0, nothing fired. -/
def stFull : PState Nat (List Record) Int :=
  ⟨[record10, record10], 0, fun _ => none⟩

/-- A producer state with one aggregated record, fresh slot 0, nothing
fired. -/
def stOne : PState Nat (List Record) Int :=
  ⟨[record10], 0, fun _ => none⟩

/-- The empty producer state. -/
def stEmpty : PState Nat (List Record) Int :=
  ⟨[], 0, fun _ => none⟩

/-- A `ProducerClient` oracle that assigns consecutive offsets from 0
(the success path of `MockClient` in the `producer.rs` tests). -/
def rpcOkZero : List Record → Except ClientError (List Int) := fun records =>
  .ok ((List.range records.length).map Int.ofNat)

/-- The shared client error of a failed batch (the error path of
`MockClient` in the `producer.rs` tests: `ServerError(NetworkException, "")`). -/
def errNet : ClientError :=
  .ServerError .NetworkException (some "") none false

/-- A `ProducerClient` oracle that fails every batch with `errNet`. -/
def rpcFailNet : List Record → Except ClientError (List Int) := fun _ =>
  .error errNet

/-- C1, counterexample: in `BatchProducer::flush` as written, on a state
whose aggregator yields a non-empty record list, the trace does contain a
`client.produce` RPC, yet the RPC is NOT preceded by the `mem::take` of
the result slot: the slot is taken only after the RPC is awaited, so the
claim fails as stated. -/
theorem c1_counterexample :
    hasRpc (produceFlush (recordAggregator 20) rpcOkZero stFull).2 = true
    ∧ slotTakenBeforeRpcs (produceFlush (recordAggregator 20) rpcOkZero stFull).2 false
      = false := by
  decide

/-- C1, amended: when the aggregator yields a non-empty record list,
`BatchProducer::flush` awaits `client.produce(records)` FIRST and only
then takes the `result_slot` out, replacing it with a fresh slot; the
broadcast still fires the slot that was current when `flush` started, and
the post-flush slot is fresh, so every `receive()` made after `flush`
returns binds to the new slot.  (Since the `ProducerInner` mutex is held
across the whole of `flush`, no `receive()` can execute while the RPC is
in flight.) -/
theorem c1_amended_thm {Input Tag S Status : Type}
    (m : AggModel Input Tag S Status)
    (rpc : List Record → Except ClientError (List Int))
    (st : PState Tag S Status)
    (hne : (m.flushAgg st.agg).1 ≠ []) :
    (produceFlush m rpc st).2 =
      [.aggFlushCall, .rpcProduce (m.flushAgg st.agg).1,
        .slotTake st.slotId, .slotBroadcast st.slotId]
    ∧ (produceFlush m rpc st).1.slotId = st.slotId + 1
    ∧ ((produceFlush m rpc st).1.fired st.slotId).isSome = true := by
  have hemp : (m.flushAgg st.agg).1.isEmpty = false := by
    cases h : (m.flushAgg st.agg).1 with
    | nil => exact absurd h hne
    | cons a l => rfl
  simp only [produceFlush, hemp]
  refine ⟨rfl, rfl, ?_⟩
  simp

/-- C1, witness: the amended flush ordering evaluated on a concrete
at-capacity state. -/
theorem c1_witness :
    (produceFlush (recordAggregator 20) rpcOkZero stFull).2 =
      [.aggFlushCall, .rpcProduce ((recordAggregator 20).flushAgg stFull.agg).1,
        .slotTake stFull.slotId, .slotBroadcast stFull.slotId]
    ∧ (produceFlush (recordAggregator 20) rpcOkZero stFull).1.slotId = stFull.slotId + 1
    ∧ ((produceFlush (recordAggregator 20) rpcOkZero stFull).1.fired stFull.slotId).isSome
      = true :=
  c1_amended_thm (recordAggregator 20) rpcOkZero stFull (by decide)

/-- C2, counterexample: a `produce` call that hits `NoCapacity` and
triggers a flush performs the `client.produce` RPC, and the RPC does NOT
happen with the `ProducerInner` mutex released: the claim that the lock is
released before the await fails as stated. -/
theorem c2_counterexample :
    hasRpc (produceEnqueue (recordAggregator 20) rpcOkZero stFull record10).2.2 = true
    ∧ lockFreeAtRpcs (produceEnqueue (recordAggregator 20) rpcOkZero stFull record10).2.2 false
      = false := by
  decide

/-- C2, amended: in the critical section of `BatchProducer::produce`,
every `client.produce` RPC (there is one exactly when `try_push` returns
`NoCapacity` and the aggregator flushes non-empty) executes WHILE the
`ProducerInner` mutex is held, and the mutex is released only at the end
of the critical section, after the receiver has been captured; callers
therefore cannot enqueue into the next batch while the RPC is in
flight. -/
theorem c2_amended_thm {Input Tag S Status : Type}
    (m : AggModel Input Tag S Status)
    (rpc : List Record → Except ClientError (List Int))
    (st : PState Tag S Status) (data : Input) :
    lockHeldAtRpcs (produceEnqueue m rpc st data).2.2 false = true
    ∧ (produceEnqueue m rpc st data).2.2.getLast? = some .lockRelease := by
  unfold produceEnqueue
  cases h1 : m.tryPush st.agg data with
  | error e => exact ⟨rfl, rfl⟩
  | ok tp =>
    cases tp with
    | Aggregated a t => exact ⟨rfl, rfl⟩
    | NoCapacity d1 =>
      simp only [produceFlush]
      by_cases hemp : (m.flushAgg st.agg).1.isEmpty = true
      · simp only [hemp, if_true]
        cases h2 : m.tryPush (m.flushAgg st.agg).2.2 d1 with
        | error e => simp [h2, lockHeldAtRpcs]
        | ok tp2 =>
          cases tp2 with
          | Aggregated a2 t2 => simp [h2, lockHeldAtRpcs]
          | NoCapacity d2 => simp [h2, lockHeldAtRpcs]
      · simp only [Bool.not_eq_true] at hemp
        simp only [hemp, if_false]
        cases h2 : m.tryPush (m.flushAgg st.agg).2.2 d1 with
        | error e => simp [h2, lockHeldAtRpcs]
        | ok tp2 =>
          cases tp2 with
          | Aggregated a2 t2 => simp [h2, lockHeldAtRpcs]
          | NoCapacity d2 => simp [h2, lockHeldAtRpcs]

/-- C3: evaluation of `maybe_retry` at the failing input.
`LeaderNotAvailable` is in the retriable set of the protocol and is not
`NotController`, yet `maybe_retry` classifies a `ServerError` carrying it
as `breakFatal`: the match in `controller.rs` has arms only for broken
connections and `NotController`, so the error surfaces to the caller
instead of being retried with backoff, against the specified retry
envelope. -/
theorem c3_bug_eval :
    ProtocolError.isRetriable .LeaderNotAvailable = true
    ∧ ProtocolError.LeaderNotAvailable ≠ ProtocolError.NotController
    ∧ classifyControllerError (.ServerError .LeaderNotAvailable none none false)
      = .breakFatal := by
  decide

/-- C4: whenever the linger expires and `result_slot.peek()` returns
`None` under the re-acquired lock, the flush performed by that caller
leaves its captured receiver immediately ready, so the non-blocking
`now_or_never` check after `flush` never panics, under the precondition
that the aggregator flushes a non-empty record list whenever it holds
data (the caller's own input is aggregated, and `peek = None` plus the
slot invariant pin the captured receiver to the current slot, which the
flush broadcasts). -/
theorem c4_thm {Input Tag S Status : Type}
    (m : AggModel Input Tag S Status)
    (rpc : List Record → Except ClientError (List Int))
    (st : PState Tag S Status) (captured : Nat) (tag : Tag)
    (hasData : S → Prop)
    (hprec : ∀ s, hasData s → (m.flushAgg s).1 ≠ [])
    (hd : hasData st.agg)
    (hwf : WellFormedSlots st)
    (hcap : captured ≤ st.slotId)
    (hpeek : st.fired captured = none) :
    ((lingerExpiredPath m rpc st captured tag).1).isSome = true := by
  have hid : captured = st.slotId := by
    have h1 : ¬ captured < st.slotId := by
      intro hlt
      have h2 := (hwf captured).mpr hlt
      rw [hpeek] at h2
      simp at h2
    omega
  have hne := hprec st.agg hd
  have hemp : (m.flushAgg st.agg).1.isEmpty = false := by
    cases h : (m.flushAgg st.agg).1 with
    | nil => exact absurd h hne
    | cons a l => rfl
  simp only [lingerExpiredPath, hpeek, produceFlush, hemp]
  simp [hid]

/-- C4, witness: a concrete lingering caller (one aggregated record,
receiver captured on the un-fired slot 0) whose forced flush leaves the
receiver ready. -/
theorem c4_witness :
    ((lingerExpiredPath (recordAggregator 20) rpcOkZero stOne 0 0).1).isSome = true :=
  c4_thm (recordAggregator 20) rpcOkZero stOne 0 0 (fun s => s ≠ [])
    (fun s h => h) (by decide) (fun k => by simp [stOne]) (Nat.le_refl 0) rfl

/-- C5: if `try_push` returns `NoCapacity` both before and after the
synchronous flush it triggers, `produce` fails with `Error::TooLarge`
after exactly two `try_push` attempts (the input is never retried), and
when the aggregator held no prior records (its flush yields no records
and leaves the reset state equal to the old one) the failing call
performs no produce RPC and leaves the producer state unchanged. -/
theorem c5_thm {Input Tag S Status : Type}
    (m : AggModel Input Tag S Status)
    (rpc : List Record → Except ClientError (List Int))
    (st : PState Tag S Status) (data data1 data2 : Input)
    (h1 : m.tryPush st.agg data = .ok (.NoCapacity data1))
    (hrec : (m.flushAgg st.agg).1 = [])
    (hreset : (m.flushAgg st.agg).2.2 = st.agg)
    (h2 : m.tryPush st.agg data1 = .ok (.NoCapacity data2)) :
    (produceEnqueue m rpc st data).1 = .error .TooLarge
    ∧ (produceEnqueue m rpc st data).2.1 = st
    ∧ hasRpc (produceEnqueue m rpc st data).2.2 = false
    ∧ (produceEnqueue m rpc st data).2.2.count Ev.tryPushCall = 2 := by
  have hemp : (m.flushAgg st.agg).1.isEmpty = true := by rw [hrec]; rfl
  simp only [produceEnqueue, h1, produceFlush, hemp, if_true, hreset, h2]
  simp [hasRpc]

/-- C5, witness: a single record twice as large as the aggregator
capacity fails with `TooLarge`, performs no RPC, and leaves the empty
producer state unchanged. -/
theorem c5_witness :
    (produceEnqueue (recordAggregator 10) rpcOkZero stEmpty recordBig).1 = .error .TooLarge
    ∧ (produceEnqueue (recordAggregator 10) rpcOkZero stEmpty recordBig).2.1 = stEmpty
    ∧ hasRpc (produceEnqueue (recordAggregator 10) rpcOkZero stEmpty recordBig).2.2 = false
    ∧ (produceEnqueue (recordAggregator 10) rpcOkZero stEmpty recordBig).2.2.count
        Ev.tryPushCall = 2 :=
  c5_thm (recordAggregator 10) rpcOkZero stEmpty recordBig recordBig recordBig
    rfl rfl rfl rfl

/-- C6: when `client.produce` fails for a batch, the flush broadcasts a
shared `Err` result on the slot every caller of that batch captured, and
`extract` hands every tag `Error::Client` wrapping the SAME client error
value `e`. -/
theorem c6_thm {Input Tag S Status : Type}
    (m : AggModel Input Tag S Status)
    (rpc : List Record → Except ClientError (List Int))
    (st : PState Tag S Status) (e : ClientError)
    (hne : (m.flushAgg st.agg).1 ≠ [])
    (hrpc : rpc (m.flushAgg st.agg).1 = .error e) :
    ∀ tag : Tag,
      ((produceFlush m rpc st).1.fired st.slotId).map (fun r => r.extract tag)
        = some (.error (.Client e)) := by
  intro tag
  have hemp : (m.flushAgg st.agg).1.isEmpty = false := by
    cases h : (m.flushAgg st.agg).1 with
    | nil => exact absurd h hne
    | cons a l => rfl
  simp only [produceFlush, hemp]
  simp [hrpc, AggregatedResultM.extract]

/-- C6, witness: two concrete callers (tags 0 and 1) of a batch whose RPC
fails with `errNet` both observe `Error::Client errNet`. -/
theorem c6_witness :
    (((produceFlush (recordAggregator 20) rpcFailNet stFull).1.fired stFull.slotId).map
        (fun r => r.extract 0)) = some (.error (.Client errNet))
    ∧ (((produceFlush (recordAggregator 20) rpcFailNet stFull).1.fired stFull.slotId).map
        (fun r => r.extract 1)) = some (.error (.Client errNet)) :=
  ⟨c6_thm (recordAggregator 20) rpcFailNet stFull errNet (by decide) rfl 0,
   c6_thm (recordAggregator 20) rpcFailNet stFull errNet (by decide) rfl 1⟩

/-- C7: if the aggregator flushes an empty record list,
`BatchProducer::flush` returns without sending a produce request, without
firing the result slot, and without replacing it: the slot id and the
fired map are untouched and the trace holds only the aggregator flush
call, so lingering callers keep waiting. -/
theorem c7_thm {Input Tag S Status : Type}
    (m : AggModel Input Tag S Status)
    (rpc : List Record → Except ClientError (List Int))
    (st : PState Tag S Status)
    (hemp : (m.flushAgg st.agg).1 = []) :
    (produceFlush m rpc st).1.slotId = st.slotId
    ∧ (produceFlush m rpc st).1.fired = st.fired
    ∧ (produceFlush m rpc st).2 = [.aggFlushCall] := by
  have h : (m.flushAgg st.agg).1.isEmpty = true := by rw [hemp]; rfl
  simp [produceFlush, h]

/-- C7, witness: flushing the empty producer state leaves slot 0 in
place, fires nothing, and performs no RPC. -/
theorem c7_witness :
    (produceFlush (recordAggregator 20) rpcOkZero stEmpty).1.slotId = stEmpty.slotId
    ∧ (produceFlush (recordAggregator 20) rpcOkZero stEmpty).1.fired = stEmpty.fired
    ∧ (produceFlush (recordAggregator 20) rpcOkZero stEmpty).2 = [.aggFlushCall] :=
  c7_thm (recordAggregator 20) rpcOkZero stEmpty rfl

/-- C9: if the create-topics RPC succeeds after retries, `create_topic`
returns `Ok(())` for EVERY outcome of the subsequent `refresh_metadata`
call: the refresh error is discarded and never reaches the caller. -/
theorem c9_thm (rpcOutcome refreshOutcome : Except ClientError Unit)
    (h : rpcOutcome = .ok ()) :
    createTopicResult rpcOutcome refreshOutcome = .ok () := by
  subst h; rfl

/-- C9, witness: a failing metadata refresh after a successful RPC still
yields `Ok(())`. -/
theorem c9_witness :
    createTopicResult (.ok ()) (.error (.Connection "refresh failed")) = .ok () :=
  c9_thm (.ok ()) (.error (.Connection "refresh failed")) rfl

/-- C10: even when the produce RPC of a batch succeeds, a caller whose
tag fails to deaggregate receives `Error::Aggregator`, while a caller of
the SAME batch whose tag deaggregates successfully still receives its
status. -/
theorem c10_thm {Input Tag S Status : Type}
    (m : AggModel Input Tag S Status)
    (rpc : List Record → Except ClientError (List Int))
    (st : PState Tag S Status) (offsets : List Int)
    (t1 t2 : Tag) (e : AggError) (s : Status)
    (hne : (m.flushAgg st.agg).1 ≠ [])
    (hrpc : rpc (m.flushAgg st.agg).1 = .ok offsets)
    (h1 : (m.flushAgg st.agg).2.1 offsets t1 = .error e)
    (h2 : (m.flushAgg st.agg).2.1 offsets t2 = .ok s) :
    ((produceFlush m rpc st).1.fired st.slotId).map (fun r => r.extract t1)
      = some (.error (.Aggregator e))
    ∧ ((produceFlush m rpc st).1.fired st.slotId).map (fun r => r.extract t2)
      = some (.ok s) := by
  have hemp : (m.flushAgg st.agg).1.isEmpty = false := by
    cases h : (m.flushAgg st.agg).1 with
    | nil => exact absurd h hne
    | cons a l => rfl
  constructor <;>
    · simp only [produceFlush, hemp]
      simp [hrpc, AggregatedResultM.extract, h1, h2]

/-- C10, witness: a successful two-record batch (offsets `[0, 1]`); the
out-of-range tag 5 extracts `Error::Aggregator`, tag 1 extracts its
offset 1. -/
theorem c10_witness :
    (((produceFlush (recordAggregator 20) rpcOkZero stFull).1.fired stFull.slotId).map
        (fun r => r.extract 5)) = some (.error (.Aggregator ⟨"tag out of range"⟩))
    ∧ (((produceFlush (recordAggregator 20) rpcOkZero stFull).1.fired stFull.slotId).map
        (fun r => r.extract 1)) = some (.ok 1) :=
  c10_thm (recordAggregator 20) rpcOkZero stFull [0, 1] 5 1 ⟨"tag out of range"⟩ 1
    (by decide) rfl rfl rfl
